import Mathlib

/-!
Verification of the EduPilot study-assistant core: the server-side proxy route
`src/app/api/ai/route.ts` (task prompt selection, retry loop with exponential
backoff, response cache and in-flight request coalescing) and the client-side
quiz component (payload validation and the quiz-taking state machine).

The route handler is embedded as a state-passing function over the two
process-wide maps (`responseCache`, `ongoingRequests`).  The outcome of each
`fetch` attempt is supplied by an oracle `Nat → FetchOutcome` (attempt index →
what the network returned), and the settled outcome of another caller's
in-flight promise is supplied by a second oracle; with those inputs the
handler's control flow is deterministic and is translated branch by branch.
-/

set_option maxRecDepth 8192

namespace EduPilot

/-! ## Upstream caller (route.ts lines 106-184) -/

/-- What one `fetch` attempt against the provider produced.
`ok body` is a 2xx response whose JSON parsed, with `body` standing for the
extracted `data.choices[0].message.content`; `httpErr status errBody` is a
non-2xx response whose error body parsed (`errorData`); `netErr msg` is a
throw inside the attempt (connection error, the 15s `AbortSignal` timeout, or
an unparseable body), with `msg` the error's message. -/
inductive FetchOutcome where
  | ok (body : String)
  | httpErr (status : Nat) (errBody : String)
  | netErr (msg : String)
deriving Repr, DecidableEq

/-- The values the request promise rejects with, one constructor per `reject`
site of the route.  `invalidTask` is line 99, `upstreamHTTP` line 155 (carrying
the response status and provider error body), `exhausted` line 182, and
`networkError` line 168 (carrying the last underlying error's message). -/
inductive RouteError where
  | invalidTask
  | upstreamHTTP (status : Nat) (details : String)
  | exhausted
  | networkError (details : String)
deriving Repr, DecidableEq

/-- How the retry loop plus the post-loop check ended: the promise resolves
with the extracted completion text, or rejects with a `RouteError`. -/
inductive LoopOutcome where
  | resolved (body : String)
  | rejectedErr (e : RouteError)
deriving Repr, DecidableEq

/-- Observable trace of the retry loop: how many `fetch` attempts ran, the
backoff sleeps in milliseconds in order, and how the loop ended. -/
structure LoopTrace where
  fetches : Nat
  waits : List Nat
  outcome : LoopOutcome
deriving Repr, DecidableEq

/-- The `while (retryCount < maxRetries)` loop of route.ts lines 110-184,
with `maxRetries = 3`.  `fuel` is `maxRetries - retryCount` (the loop guard),
`r` the current `retryCount`, `ws` the sleeps performed so far and `n` the
fetches performed so far.  Each iteration fetches once (oracle at index `r`:
every non-breaking branch increments `retryCount` exactly once, so the attempt
index equals `retryCount`).  A 429 sleeps `2^retryCount * 1000` ms and retries;
any other non-ok status rejects at once with status and error body; a thrown
error first increments `retryCount`, rejects with the error's message if the
ceiling is reached, and otherwise sleeps `2^retryCount * 1000` ms with the
already-incremented count.  Falling out of the loop rejects at line 182. -/
def runAttemptsAux (oracle : Nat → FetchOutcome) :
    Nat → Nat → List Nat → Nat → LoopTrace
  | 0, _, ws, n => { fetches := n, waits := ws, outcome := .rejectedErr .exhausted }
  | fuel + 1, r, ws, n =>
    match oracle r with
    | .ok body => { fetches := n + 1, waits := ws, outcome := .resolved body }
    | .httpErr status errBody =>
        if status = 429 then
          runAttemptsAux oracle fuel (r + 1) (ws ++ [2 ^ r * 1000]) (n + 1)
        else
          { fetches := n + 1, waits := ws,
            outcome := .rejectedErr (.upstreamHTTP status errBody) }
    | .netErr msg =>
        if 3 ≤ r + 1 then
          { fetches := n + 1, waits := ws,
            outcome := .rejectedErr (.networkError msg) }
        else
          runAttemptsAux oracle fuel (r + 1) (ws ++ [2 ^ (r + 1) * 1000]) (n + 1)

/-- The full retry loop as entered by the route: `retryCount = 0`, no sleeps,
no fetches yet. -/
def runAttempts (oracle : Nat → FetchOutcome) : LoopTrace :=
  runAttemptsAux oracle 3 0 [] 0

/-! ## Task prompt selector (route.ts lines 45-101) -/

/-- The default model of line 46. -/
def defaultModel : String := "meta-llama/llama-4-scout:free"

/-- The reasoning model of line 50, used for `mindmap` and `quiz`. -/
def reasoningModel : String := "deepseek/deepseek-r1-distill-qwen-32b:free"

/-- The per-task request parameters the switch of lines 59-101 selects. -/
structure TaskParams where
  model : String
  systemPrompt : String
  userPrompt : String
  temperature : ℚ
  maxTokens : Nat
deriving Repr, DecidableEq

/-- System prompt of the `summarize` case (line 61). -/
def summarizeSystem : String :=
  "You are an AI study assistant that creates concise, informative summaries of educational content. Focus on key concepts, main ideas, and important details. Format your response with clear headings, bullet points for key facts, and a brief conclusion."

/-- User prompt of the `summarize` case (line 63). -/
def summarizeUser (content : String) : String :=
  "Please summarize the following text in a clear, structured format with headings and bullet points for key concepts:\n\n" ++ content

/-- System prompt of the `quiz` case (line 68). -/
def quizSystem : String :=
  "You are an AI study assistant that creates educational quiz questions. Generate challenging but fair multiple-choice questions based on the provided content. Each question should have 4 options with exactly one correct answer. IMPORTANT: Return ONLY the raw JSON array without any markdown formatting, code blocks, or explanation. The response should be directly parseable by JSON.parse()."

/-- User prompt of the `quiz` case (line 70). -/
def quizUser (content : String) : String :=
  "Create 5 multiple-choice quiz questions based on this content. Return ONLY a JSON array with objects containing 'question', 'options' (array of 4 choices), and 'correctAnswer' fields. Do not include any explanation, markdown formatting, or code blocks in your response. The response must be valid JSON that can be directly parsed:\n\n" ++ content

/-- System prompt of the `askdoubt` case (line 76). -/
def askdoubtSystem : String :=
  "You are an AI tutor that answers student questions clearly and accurately. Provide detailed explanations with examples when helpful."

/-- User prompt of the `askdoubt` case (line 78). -/
def askdoubtUser (prompt content : String) : String :=
  "The student is studying the following content and has this question: \"" ++ prompt ++ "\"\n\nContent: " ++ content ++ "\n\nProvide a helpful, educational answer."

/-- System prompt of the `mindmap` case (line 83). -/
def mindmapSystem : String :=
  "You are an AI study assistant that creates mind maps. Extract key concepts and their relationships from educational content. IMPORTANT: Return ONLY the raw JSON object without any markdown formatting, code blocks, or explanation. The response should be directly parseable by JSON.parse()."

/-- User prompt of the `mindmap` case (line 85). -/
def mindmapUser (content : String) : String :=
  "Create a mind map based on this content. Return ONLY a JSON object with a 'center' field (main topic) and a 'nodes' array. Each node should have 'id', 'text', 'position' (as an array [x,y,z] with 3 numeric values), and optionally 'children' (an array with the same structure). Do not include any explanation, markdown formatting, or code blocks in your response. The response must be valid JSON that can be directly parsed:\n\n" ++ content

/-- System prompt of the `flashcards` case (line 91). -/
def flashcardsSystem : String :=
  "You are an AI study assistant that creates effective flashcards for learning. Extract key concepts and definitions from educational content. IMPORTANT: Return ONLY the raw JSON array without any markdown formatting, code blocks, or explanation. The response should be directly parseable by JSON.parse()."

/-- User prompt of the `flashcards` case (line 93). -/
def flashcardsUser (content : String) : String :=
  "Create 5-10 flashcards based on this content. Return ONLY a JSON array with objects containing 'id', 'question', and 'answer' fields. Do not include any explanation, markdown formatting, or code blocks in your response. The response must be valid JSON that can be directly parsed:\n\n" ++ content

/-- Lines 45-101: the model is chosen before the switch (`deepseek` for
`mindmap` and `quiz`, the default otherwise, line 49); the switch then fills
the prompts, overriding the defaults `temperature = 0.7` and
`maxTokens = 1024` per task; its `default` arm rejects with the invalid-task
error before any fetch, modelled here as `none`.  JS number literals 0.3, 0.7,
0.4, 0.5 are embedded as the rationals they denote. -/
def selectTaskParams (task content prompt : String) : Option TaskParams :=
  let model := if task = "mindmap" ∨ task = "quiz" then reasoningModel else defaultModel
  if task = "summarize" then
    some { model := model, systemPrompt := summarizeSystem,
           userPrompt := summarizeUser content, temperature := 3 / 10, maxTokens := 1024 }
  else if task = "quiz" then
    some { model := model, systemPrompt := quizSystem,
           userPrompt := quizUser content, temperature := 7 / 10, maxTokens := 1500 }
  else if task = "askdoubt" then
    some { model := model, systemPrompt := askdoubtSystem,
           userPrompt := askdoubtUser prompt content, temperature := 2 / 5, maxTokens := 1024 }
  else if task = "mindmap" then
    some { model := model, systemPrompt := mindmapSystem,
           userPrompt := mindmapUser content, temperature := 7 / 10, maxTokens := 2000 }
  else if task = "flashcards" then
    some { model := model, systemPrompt := flashcardsSystem,
           userPrompt := flashcardsUser content, temperature := 1 / 2, maxTokens := 1500 }
  else
    none

/-! ## Request coalescer and cache (route.ts lines 8-13, 15-43, 186-213) -/

/-- One entry of `responseCache`: the cached `{ result }` payload (its
`result` string) and the `Date.now()` at which it was stored (line 190). -/
structure CacheEntry where
  data : String
  timestamp : Nat
deriving Repr, DecidableEq

/-- `CACHE_TTL = 1000 * 60 * 10` ms (line 10). -/
def CACHE_TTL : Nat := 1000 * 60 * 10

/-- The two process-wide maps: `responseCache` as an association list and the
key set of `ongoingRequests` (a key is present exactly when an `InFlightEntry`
exists for it; the settled value of that entry's promise is supplied to the
handler separately, as an oracle). -/
structure ServerState where
  cache : List (String × CacheEntry)
  ongoing : List String
deriving Repr, DecidableEq

/-- `Map.get` on the cache. -/
def lookupCache : List (String × CacheEntry) → String → Option CacheEntry
  | [], _ => none
  | (k, e) :: rest, key => if k = key then some e else lookupCache rest key

/-- `Map.set` on the cache: overwrite in place or append. -/
def setCache : List (String × CacheEntry) → String → CacheEntry → List (String × CacheEntry)
  | [], key, v => [(key, v)]
  | (k, e) :: rest, key, v =>
      if k = key then (key, v) :: rest else (k, e) :: setCache rest key v

/-- `ongoingRequests.set` restricted to keys (a `Map` keeps one entry per key). -/
def addKey (l : List String) (k : String) : List String :=
  if k ∈ l then l else l ++ [k]

/-- `ongoingRequests.delete` restricted to keys. -/
def removeKey (l : List String) (k : String) : List String :=
  l.filter (fun x => x ≠ k)

/-- The parsed request body `{ prompt, task, content }` (line 17). -/
structure Request where
  prompt : String
  task : String
  content : String
deriving Repr, DecidableEq

/-- Line 20: the cache key
`` `${task}:${content?.slice(0, 100)}:${prompt?.slice(0, 50)}` `` for a body
whose three fields are present strings. -/
def cacheKeyOf (req : Request) : String :=
  req.task ++ ":" ++ req.content.take 100 ++ ":" ++ req.prompt.take 50

/-- The settled outcome of an in-flight promise: what it resolved with
(the `result` string of line 187) or the `RouteError` it rejected with. -/
inductive CallResult where
  | success (data : String)
  | rejected (e : RouteError)
deriving Repr, DecidableEq

/-- What `POST` returns for this request: the JSON `{ result }` payload on
success, or the `RouteError` the request promise rejected with (the outer
catch of lines 214-219 serializes it as a 500-class JSON error body). -/
inductive Response where
  | ok (body : String)
  | err (e : RouteError)
deriving Repr, DecidableEq

/-- Lines 43-209: create the request promise, register it, and await it.
The promise executor is an async function, so it runs synchronously up to its
first `await`:

* unsupported task (line 98): the executor rejects and runs its `finally`
  (`ongoingRequests.delete`, line 204) before `new Promise` even returns, and
  only then does line 209 `ongoingRequests.set` run — so the map is left
  holding the key, pointing at the already-rejected promise, and nothing ever
  deletes it again;
* supported task: the executor suspends at the first `fetch`, line 209
  registers the key, the retry loop runs, a success populates the cache
  (lines 190-193) before resolving, and the `finally` deletes the key after
  the promise settles either way.

The returned `Nat` counts the `fetch` calls this request itself performed. -/
def freshRequest (st : ServerState) (now : Nat) (req : Request) (key : String)
    (oracle : Nat → FetchOutcome) : Response × ServerState × Nat :=
  match selectTaskParams req.task req.content req.prompt with
  | none =>
      (.err .invalidTask, { st with ongoing := addKey (removeKey st.ongoing key) key }, 0)
  | some _params =>
      let tr := runAttempts oracle
      match tr.outcome with
      | .resolved body =>
          (.ok body,
           { cache := setCache st.cache key { data := body, timestamp := now },
             ongoing := removeKey (addKey st.ongoing key) key },
           tr.fetches)
      | .rejectedErr e =>
          (.err e, { st with ongoing := removeKey (addKey st.ongoing key) key }, tr.fetches)

/-- Lines 29-43: past the cache check, a request whose key has an
`InFlightEntry` awaits that shared promise (`shared key` is its settled
outcome): a resolution is returned as this request's own response with no
fetch and no state change; a rejection is caught at line 36 and the handler
falls through to a fresh request of its own (line 38). -/
def afterCache (st : ServerState) (now : Nat) (req : Request) (key : String)
    (shared : String → CallResult) (oracle : Nat → FetchOutcome) :
    Response × ServerState × Nat :=
  if key ∈ st.ongoing then
    match shared key with
    | .success d => (.ok d, st, 0)
    | .rejected _ => freshRequest st now req key oracle
  else
    freshRequest st now req key oracle

/-- The `POST` handler (route.ts lines 15-221) for one request ran to
settlement, with `now` the value of `Date.now()` during the run: serve an
unexpired cache entry as-is (lines 23-27, no fetch, no state change; an
expired entry is left in place and falls through), else coalesce onto an
in-flight promise or start a fresh request. -/
def handlePOST (st : ServerState) (now : Nat) (req : Request)
    (shared : String → CallResult) (oracle : Nat → FetchOutcome) :
    Response × ServerState × Nat :=
  let key := cacheKeyOf req
  match lookupCache st.cache key with
  | some entry =>
      if now - entry.timestamp < CACHE_TTL then (.ok entry.data, st, 0)
      else afterCache st now req key shared oracle
  | none => afterCache st now req key shared oracle

/-! ## Quiz component (the QuizGenerator source file) -/

/-- The slice of JavaScript values the quiz payload handling inspects:
`undefined`, strings, arrays, and objects as field lists. -/
inductive JSVal where
  | undefined : JSVal
  | str : String → JSVal
  | arr : List JSVal → JSVal
  | obj : List (String × JSVal) → JSVal
deriving Repr

/-- JS truthiness on that slice: `undefined` and the empty string are falsy,
every array and object is truthy. -/
def truthy : JSVal → Bool
  | .undefined => false
  | .str s => !(s = "")
  | .arr _ => true
  | .obj _ => true

/-- First field of the given name, `undefined` when absent. -/
def lookupField : List (String × JSVal) → String → JSVal
  | [], _ => .undefined
  | (k, v) :: rest, name => if k = name then v else lookupField rest name

/-- JS property access `q.name` on the modelled values (`undefined` off an
object). -/
def jsGet (q : JSVal) (name : String) : JSVal :=
  match q with
  | .obj fields => lookupField fields name
  | _ => .undefined

/-- `Array.isArray`. -/
def isArr : JSVal → Bool
  | .arr _ => true
  | _ => false

/-- `.length` of an array value (only ever read behind an `Array.isArray`
guard in the component). -/
def jsLength : JSVal → Nat
  | .arr xs => xs.length
  | _ => 0

/-- The per-element predicate of the `onSuccess` validation (QuizGenerator
line 42): `q.question && Array.isArray(q.options) && q.options.length === 4 &&
q.correctAnswer`.  Note it never compares `correctAnswer` with the options. -/
def isValidQuizElement (q : JSVal) : Bool :=
  truthy (jsGet q "question") && isArr (jsGet q "options")
    && (jsLength (jsGet q "options") == 4) && truthy (jsGet q "correctAnswer")

/-- The whole validation of QuizGenerator lines 40-43: the payload is an array
and `data.every` of the element predicate holds. -/
def validQuizPayload : JSVal → Bool
  | .arr xs => xs.all isValidQuizElement
  | _ => false

/-- The component's `QuizQuestion` interface. -/
structure QuizQuestion where
  question : String
  options : List String
  correctAnswer : String
deriving Repr, DecidableEq

/-- The string a validated field is used as (validated fields are produced by
`JSON.parse` of provider text, so the strings of interest are `.str`). -/
def asString : JSVal → String
  | .str s => s
  | _ => ""

/-- An `options` array read as strings. -/
def asStringList : JSVal → List String
  | .arr xs => xs.map asString
  | _ => []

/-- A validated array element as the `QuizQuestion` the component renders. -/
def toQuizQuestion (q : JSVal) : QuizQuestion :=
  { question := asString (jsGet q "question"),
    options := asStringList (jsGet q "options"),
    correctAnswer := asString (jsGet q "correctAnswer") }

/-- A validated payload as the component's question list. -/
def toQuizQuestions : JSVal → List QuizQuestion
  | .arr xs => xs.map toQuizQuestion
  | _ => []

/-- The component's own state: the six `useState` hooks of QuizGenerator
lines 27-32. -/
structure QuizState where
  quiz : List QuizQuestion
  currentQuestionIndex : Nat
  selectedOption : Option String
  isAnswered : Bool
  score : Nat
  isQuizCompleted : Bool
deriving Repr, DecidableEq

/-- The initial values of the six hooks. -/
def initialQuizState : QuizState :=
  { quiz := [], currentQuestionIndex := 0, selectedOption := none,
    isAnswered := false, score := 0, isQuizCompleted := false }

/-- The `onSuccess` callback (lines 38-57): a payload failing the validation
is logged and dropped — every state hook keeps its value — while a valid one
replaces the question list and resets index, selection, answered flag, score
and completion.  (The `addPoints` call goes to the external points hook and
touches no component state.) -/
def onQuizSuccess (data : JSVal) (s : QuizState) : QuizState :=
  if validQuizPayload data then
    { quiz := toQuizQuestions data, currentQuestionIndex := 0, selectedOption := none,
      isAnswered := false, score := 0, isQuizCompleted := false }
  else s

/-- `quiz[currentQuestionIndex]` (line 75): `undefined` past the end. -/
def currentQuestion (s : QuizState) : Option QuizQuestion :=
  s.quiz[s.currentQuestionIndex]?

/-- `handleOptionSelect` (lines 77-80): ignored once answered. -/
def handleOptionSelect (opt : String) (s : QuizState) : QuizState :=
  if s.isAnswered then s else { s with selectedOption := some opt }

/-- Truthiness of the `selectedOption` state (a `string | null`): `null` and
the empty string are falsy. -/
def optionTruthy : Option String → Bool
  | none => false
  | some s => !(s = "")

/-- `checkAnswer` (lines 82-92): a no-op without a truthy selection and a
current question; otherwise marks the question answered and increments the
score exactly when the selection equals the question's `correctAnswer`. -/
def checkAnswer (s : QuizState) : QuizState :=
  if optionTruthy s.selectedOption then
    match currentQuestion s with
    | none => s
    | some q =>
        if s.selectedOption = some q.correctAnswer then
          { s with isAnswered := true, score := s.score + 1 }
        else
          { s with isAnswered := true }
  else s

/-- `nextQuestion` (lines 94-105): advance and clear the per-question state
while questions remain, else mark the quiz completed.  (The completion bonus
goes to the external points hook.) -/
def nextQuestion (s : QuizState) : QuizState :=
  if s.currentQuestionIndex < s.quiz.length - 1 then
    { s with currentQuestionIndex := s.currentQuestionIndex + 1,
             selectedOption := none, isAnswered := false }
  else
    { s with isQuizCompleted := true }

/-- `restartQuiz` (lines 107-113): reset index, selection, answered flag,
score and completion; the `quiz` hook is not written, and neither
`makeRequest` nor `generateQuiz` is called. -/
def restartQuiz (s : QuizState) : QuizState :=
  { s with currentQuestionIndex := 0, selectedOption := none,
           isAnswered := false, score := 0, isQuizCompleted := false }

/-- Which of the component's top-level screens renders. -/
inductive QuizView where
  | loading
  | errorView (message : String)
  | noQuestions
  | questionView (index : Nat)
  | results
deriving Repr, DecidableEq

/-- The return paths other than loading and error: the no-questions screen at
line 158 (`!currentQuestion && !isQuizCompleted && !isLoading`), then the main
markup, whose `AnimatePresence` shows the question card when
`!isQuizCompleted && currentQuestion` and the results card when
`isQuizCompleted`. -/
def renderQuizBody (s : QuizState) : QuizView :=
  if (currentQuestion s).isNone && !s.isQuizCompleted then .noQuestions
  else if !s.isQuizCompleted && (currentQuestion s).isSome then
    .questionView s.currentQuestionIndex
  else .results

/-- The component's render (lines 115-335): the loading screen while
`isLoading`, else the error card for a truthy `error`, else the body. -/
def renderQuiz (isLoading : Bool) (error : Option String) (s : QuizState) : QuizView :=
  if isLoading then .loading
  else if optionTruthy error then .errorView (error.getD "")
  else renderQuizBody s

/-- Modelled from the spec: the `isLoading` / `error` pair of the
`useAIRequest` hook after a delivered payload.  The hook's source is not among
the examined files; per the specification quiz generation "disables
interaction (`Loading`) until it settles", and an error is reported only when
the request itself fails — so once a payload has been parsed and handed to
`onSuccess`, the request has settled successfully: `isLoading` is `false` and
no error message is set. -/
def settledHookFlags : Bool × Option String := (false, none)

/-- Whether a view is the loading screen or the error card. -/
def isLoadingOrErrorView : QuizView → Bool
  | .loading => true
  | .errorView _ => true
  | _ => false

/-- The (model, temperature, maxTokens) policy triple of selected parameters. -/
def policyTriple (p : TaskParams) : String × ℚ × Nat :=
  (p.model, p.temperature, p.maxTokens)

/-- A network run whose first attempt throws and whose second succeeds. -/
def oracleNetThenOk : Nat → FetchOutcome :=
  fun r => if r = 0 then .netErr "connection refused" else .ok "recovered"

/-- A provider payload whose single element has 4 options and a `correctAnswer`
(`"E"`) that is none of them. -/
def foreignAnswerPayload : JSVal :=
  .arr [.obj [("question", .str "Q1"),
              ("options", .arr [.str "A", .str "B", .str "C", .str "D"]),
              ("correctAnswer", .str "E")]]

/-- A provider payload whose single element lacks `options` and
`correctAnswer`. -/
def partialQuizPayload : JSVal :=
  .arr [.obj [("question", .str "Q")]]

/-! ## Helper lemmas -/

/-- Each remaining loop iteration performs at most one fetch. -/
theorem runAttemptsAux_fetches_le (oracle : Nat → FetchOutcome) :
    ∀ fuel r ws n, (runAttemptsAux oracle fuel r ws n).fetches ≤ n + fuel := by
  intro fuel
  induction fuel with
  | zero => intro r ws n; simp [runAttemptsAux]
  | succ f ih =>
    intro r ws n
    rw [runAttemptsAux]
    rcases h : oracle r with body | ⟨status, errBody⟩ | msg
    · simp only []; omega
    · by_cases h429 : status = 429
      · simp only [if_pos h429]
        have := ih (r + 1) (ws ++ [2 ^ r * 1000]) (n + 1)
        omega
      · simp only [if_neg h429]; omega
    · by_cases hr : 3 ≤ r + 1
      · simp only [if_pos hr]; omega
      · simp only [if_neg hr]
        have := ih (r + 1) (ws ++ [2 ^ (r + 1) * 1000]) (n + 1)
        omega

/-- The fetch counter never decreases. -/
theorem le_runAttemptsAux_fetches (oracle : Nat → FetchOutcome) :
    ∀ fuel r ws n, n ≤ (runAttemptsAux oracle fuel r ws n).fetches := by
  intro fuel
  induction fuel with
  | zero => intro r ws n; simp [runAttemptsAux]
  | succ f ih =>
    intro r ws n
    rw [runAttemptsAux]
    rcases h : oracle r with body | ⟨status, errBody⟩ | msg
    · simp only []; omega
    · by_cases h429 : status = 429
      · simp only [if_pos h429]
        have := ih (r + 1) (ws ++ [2 ^ r * 1000]) (n + 1)
        omega
      · simp only [if_neg h429]; omega
    · by_cases hr : 3 ≤ r + 1
      · simp only [if_pos hr]; omega
      · simp only [if_neg hr]
        have := ih (r + 1) (ws ++ [2 ^ (r + 1) * 1000]) (n + 1)
        omega

/-- Entering the loop performs at least one fetch. -/
theorem one_le_runAttempts_fetches (oracle : Nat → FetchOutcome) :
    1 ≤ (runAttempts oracle).fetches := by
  rw [runAttempts, show (3 : Nat) = 2 + 1 from rfl, runAttemptsAux]
  rcases h : oracle 0 with body | ⟨status, errBody⟩ | msg
  · simp
  · by_cases h429 : status = 429
    · simp only [if_pos h429]
      exact le_runAttemptsAux_fetches oracle 2 1 [2 ^ 0 * 1000] 1
    · simp only [if_neg h429]; omega
  · by_cases hr : 3 ≤ 0 + 1
    · omega
    · simp only [if_neg hr]
      exact le_runAttemptsAux_fetches oracle 2 1 [2 ^ 1 * 1000] 1

/-- Overwriting the cache at a key makes that key look up the new entry. -/
theorem lookupCache_setCache_self (l : List (String × CacheEntry)) (k : String)
    (v : CacheEntry) : lookupCache (setCache l k v) k = some v := by
  induction l with
  | nil => simp [setCache, lookupCache]
  | cons p rest ih =>
    obtain ⟨a, b⟩ := p
    by_cases h : a = k
    · simp [setCache, lookupCache, h]
    · simp [setCache, lookupCache, h, ih]

/-! ## The claims -/

/-- C1, counterexample.  A request whose key has an `InFlightEntry` and whose
shared promise rejected (here with `networkError "boom"`) does not surface that
failure: the handler returns `ok "fresh"` — the result of a brand-new upstream
attempt of its own, having performed 1 fetch and populated the cache — instead
of the shared failure with 0 fetches that the claim requires. -/
theorem waiter_failure_fallthrough_cex :
    handlePOST { cache := [], ongoing := ["summarize:c:p"] } 0
        { prompt := "p", task := "summarize", content := "c" }
        (fun _ => .rejected (.networkError "boom")) (fun _ => .ok "fresh")
      = (.ok "fresh",
         { cache := [("summarize:c:p", { data := "fresh", timestamp := 0 })],
           ongoing := [] },
         1) := by decide

/-- C1 (amended).  A request that finds an `InFlightEntry` for its cache key
awaits the shared result: a resolution is returned unchanged with no fetch,
but a rejection is caught and the waiter falls through to a fresh upstream
request of its own — performing at least one new fetch whenever the task is
recognized and returning that fresh attempt's outcome, not the shared
failure. -/
theorem waiter_shares_success_and_retries_failure
    (st : ServerState) (now : Nat) (req : Request)
    (shared : String → CallResult) (oracle : Nat → FetchOutcome)
    (hmiss : lookupCache st.cache (cacheKeyOf req) = none)
    (hin : cacheKeyOf req ∈ st.ongoing) :
    (∀ d, shared (cacheKeyOf req) = .success d →
        handlePOST st now req shared oracle = (.ok d, st, 0)) ∧
    (∀ e, shared (cacheKeyOf req) = .rejected e →
        handlePOST st now req shared oracle
          = freshRequest st now req (cacheKeyOf req) oracle ∧
        ((selectTaskParams req.task req.content req.prompt).isSome →
          1 ≤ (freshRequest st now req (cacheKeyOf req) oracle).2.2)) := by
  constructor
  · intro d hd
    rw [handlePOST, hmiss, afterCache, if_pos hin, hd]
  · intro e he
    constructor
    · rw [handlePOST, hmiss, afterCache, if_pos hin, he]
    · intro hsome
      obtain ⟨p, hp⟩ := Option.isSome_iff_exists.mp hsome
      rw [freshRequest, hp]
      have h1 := one_le_runAttempts_fetches oracle
      rcases h : (runAttempts oracle).outcome with body | err
      · simp only [h]; exact h1
      · simp only [h]; exact h1

/-- C1, witness for the amended theorem: both hypotheses discharged at a
concrete state and request (the success arm). -/
theorem waiter_shares_success_and_retries_failure_witness :
    handlePOST { cache := [], ongoing := ["summarize:c:p"] } 0
        { prompt := "p", task := "summarize", content := "c" }
        (fun _ => .success "shared") (fun _ => .ok "fresh")
      = (.ok "shared", { cache := [], ongoing := ["summarize:c:p"] }, 0) :=
  (waiter_shares_success_and_retries_failure
      { cache := [], ongoing := ["summarize:c:p"] } 0
      { prompt := "p", task := "summarize", content := "c" }
      (fun _ => .success "shared") (fun _ => .ok "fresh")
      (by decide) (by decide)).1 "shared" rfl

/-- C2.  Evaluation at the failing input: a request with the unrecognized task
`"translate"` settles (its promise rejects with the invalid-task error, and no
fetch happens), yet its key `"translate:c:p"` IS left in the in-flight map —
the executor of the promise runs synchronously, so its `finally`
(`ongoingRequests.delete`, route.ts line 204) executes before line 209 sets the
entry, and nothing ever deletes it afterwards. -/
theorem stale_inflight_entry_after_invalid_task :
    handlePOST { cache := [], ongoing := [] } 0
        { prompt := "p", task := "translate", content := "c" }
        (fun _ => .rejected .invalidTask) (fun _ => .ok "x")
      = (.err .invalidTask, { cache := [], ongoing := ["translate:c:p"] }, 0) := by
  decide

/-- C3.  The retry loop performs at most 3 fetch attempts; a 429 at attempt
`r` (counting from 0) sleeps exactly `2 ^ r * 1000` ms — one second after the
first attempt, two after the second, four after the third — before the loop
continues; any other non-ok status rejects at once with the status and the
provider error body, performing no further attempt and no sleep; and a run
rate-limited throughout makes exactly 3 attempts (so at most 2 retries follow
a 429) with sleeps 1000, 2000, 4000 ms. -/
theorem upstream_retry_policy (oracle : Nat → FetchOutcome) :
    (runAttempts oracle).fetches ≤ 3 ∧
    (∀ fuel r ws n b, oracle r = .httpErr 429 b →
        runAttemptsAux oracle (fuel + 1) r ws n
          = runAttemptsAux oracle fuel (r + 1) (ws ++ [2 ^ r * 1000]) (n + 1)) ∧
    (∀ fuel r ws n s b, oracle r = .httpErr s b → s ≠ 429 →
        runAttemptsAux oracle (fuel + 1) r ws n
          = { fetches := n + 1, waits := ws,
              outcome := .rejectedErr (.upstreamHTTP s b) }) ∧
    (∀ b, (∀ r, oracle r = .httpErr 429 b) →
        runAttempts oracle
          = { fetches := 3, waits := [1000, 2000, 4000],
              outcome := .rejectedErr .exhausted }) := by
  refine ⟨?_, ?_, ?_, ?_⟩
  · simpa using runAttemptsAux_fetches_le oracle 3 0 [] 0
  · intro fuel r ws n b hb
    rw [runAttemptsAux, hb]
    simp
  · intro fuel r ws n s b hb hs
    rw [runAttemptsAux, hb]
    simp [hs]
  · intro b hb
    rw [runAttempts]
    rw [show (3 : Nat) = 2 + 1 from rfl, runAttemptsAux, hb 0]
    rw [show (2 : Nat) = 1 + 1 from rfl, runAttemptsAux, hb 1]
    rw [show (1 : Nat) = 0 + 1 from rfl, runAttemptsAux, hb 2]
    rw [runAttemptsAux]
    norm_num

/-- C3, witness: a run rate-limited on every attempt, the universally
rate-limited conjunct discharged at that oracle. -/
theorem upstream_retry_policy_witness :
    runAttempts (fun _ => .httpErr 429 "limit")
      = { fetches := 3, waits := [1000, 2000, 4000],
          outcome := .rejectedErr .exhausted } :=
  (upstream_retry_policy (fun _ => .httpErr 429 "limit")).2.2.2 "limit" (fun _ => rfl)

/-- C4, counterexample.  The first attempt (attempt number 0) fails at the
network level and the loop then sleeps 2000 ms — `2 ^ (0 + 1) * 1000`, because
the catch block increments `retryCount` before computing the backoff — not the
`2 ^ 0 * 1000 = 1000` ms the claim requires (the 429 path does sleep
`2 ^ 0 * 1000` there). -/
theorem network_backoff_exponent_cex :
    runAttempts oracleNetThenOk
      = { fetches := 2, waits := [2000], outcome := .resolved "recovered" } ∧
    (2000 : Nat) ≠ 2 ^ 0 * 1000 := by decide

/-- C4 (amended).  A network-level failure at attempt number `a` (counting
from 0) with the 3-attempt ceiling not yet reached sleeps `2 ^ (a + 1) * 1000`
ms — one exponent step above the 429 path's `2 ^ a * 1000` — before retrying;
a run whose three attempts all fail at the network level makes exactly 3
fetches, sleeps 2000 then 4000 ms, and rejects with the network error carrying
the message of the last attempt's underlying error. -/
theorem network_retry_policy (oracle : Nat → FetchOutcome) :
    (∀ fuel r ws n m, oracle r = .netErr m → r + 1 < 3 →
        runAttemptsAux oracle (fuel + 1) r ws n
          = runAttemptsAux oracle fuel (r + 1) (ws ++ [2 ^ (r + 1) * 1000]) (n + 1)) ∧
    (∀ m0 m1 m2, oracle 0 = .netErr m0 → oracle 1 = .netErr m1 →
        oracle 2 = .netErr m2 →
        runAttempts oracle
          = { fetches := 3, waits := [2000, 4000],
              outcome := .rejectedErr (.networkError m2) }) := by
  constructor
  · intro fuel r ws n m hm hr
    rw [runAttemptsAux, hm]
    simp [show ¬ 3 ≤ r + 1 by omega]
  · intro m0 m1 m2 h0 h1 h2
    rw [runAttempts]
    rw [show (3 : Nat) = 2 + 1 from rfl, runAttemptsAux, h0]
    norm_num
    rw [show (2 : Nat) = 1 + 1 from rfl, runAttemptsAux, h1]
    norm_num
    rw [show (1 : Nat) = 0 + 1 from rfl, runAttemptsAux, h2]
    norm_num

/-- C4, witness for the amended theorem: the all-network-failures conjunct
discharged at a concrete oracle. -/
theorem network_retry_policy_witness :
    runAttempts (fun r => .netErr (toString r))
      = { fetches := 3, waits := [2000, 4000],
          outcome := .rejectedErr (.networkError "2") } :=
  (network_retry_policy (fun r => .netErr (toString r))).2 "0" "1" "2" rfl rfl rfl

/-- C5.  A first call with a recognized task, no usable cache entry and no
in-flight entry whose single fetch succeeds returns the provider's body and
performs exactly 1 upstream call; a second call agreeing on the task, the
first 100 characters of `content` and the first 50 characters of `prompt`,
arriving within the 10-minute TTL of that success, returns the byte-identical
cached body, performs 0 fetches, and leaves the server state unchanged — so
exactly one upstream call is made in total. -/
theorem cached_repeat_call_no_upstream
    (st : ServerState) (now now2 : Nat) (req req2 : Request)
    (shared shared2 : String → CallResult) (oracle oracle2 : Nat → FetchOutcome)
    (body : String)
    (hmiss : lookupCache st.cache (cacheKeyOf req) = none)
    (hnof : cacheKeyOf req ∉ st.ongoing)
    (hok : oracle 0 = .ok body)
    (htask : (selectTaskParams req.task req.content req.prompt).isSome)
    (htask2 : req2.task = req.task)
    (hcont : req2.content.take 100 = req.content.take 100)
    (hpr : req2.prompt.take 50 = req.prompt.take 50)
    (httl : now2 - now < CACHE_TTL) :
    (handlePOST st now req shared oracle).1 = .ok body ∧
    (handlePOST st now req shared oracle).2.2 = 1 ∧
    handlePOST (handlePOST st now req shared oracle).2.1 now2 req2 shared2 oracle2
      = (.ok body, (handlePOST st now req shared oracle).2.1, 0) := by
  obtain ⟨p, hp⟩ := Option.isSome_iff_exists.mp htask
  have hkey : cacheKeyOf req2 = cacheKeyOf req := by
    rw [cacheKeyOf, cacheKeyOf, htask2, hcont, hpr]
  have htr : runAttempts oracle
      = { fetches := 1, waits := [], outcome := .resolved body } := by
    rw [runAttempts, show (3 : Nat) = 2 + 1 from rfl, runAttemptsAux, hok]
  have h1 : handlePOST st now req shared oracle
      = (.ok body,
         { cache := setCache st.cache (cacheKeyOf req)
             { data := body, timestamp := now },
           ongoing := removeKey (addKey st.ongoing (cacheKeyOf req)) (cacheKeyOf req) },
         1) := by
    rw [handlePOST, hmiss, afterCache, if_neg hnof, freshRequest, hp, htr]
  rw [h1]
  refine ⟨rfl, rfl, ?_⟩
  rw [handlePOST, hkey]
  rw [lookupCache_setCache_self]
  simp only [if_pos httl]

/-- C5, witness: concrete empty state, a summarize request succeeding on its
first fetch, and an identical request 10 ms later. -/
theorem cached_repeat_call_no_upstream_witness :
    handlePOST
        (handlePOST { cache := [], ongoing := [] } 0
            { prompt := "p", task := "summarize", content := "c" }
            (fun _ => .rejected .invalidTask) (fun _ => .ok "body1")).2.1
        10 { prompt := "p", task := "summarize", content := "c" }
        (fun _ => .rejected .invalidTask) (fun _ => .netErr "down")
      = (.ok "body1",
         (handlePOST { cache := [], ongoing := [] } 0
             { prompt := "p", task := "summarize", content := "c" }
             (fun _ => .rejected .invalidTask) (fun _ => .ok "body1")).2.1,
         0) :=
  (cached_repeat_call_no_upstream { cache := [], ongoing := [] } 0 10
      { prompt := "p", task := "summarize", content := "c" }
      { prompt := "p", task := "summarize", content := "c" }
      (fun _ => .rejected .invalidTask) (fun _ => .rejected .invalidTask)
      (fun _ => .ok "body1") (fun _ => .netErr "down") "body1"
      rfl (by decide) rfl (by decide) rfl rfl rfl (by decide)).2.2

/-- C6.  The switch maps each recognized task to exactly the policy tuple of
the table — summarize: default model, temperature 3/10, 1024 tokens; quiz:
reasoning model, 7/10, 1500; askdoubt: default, 2/5 (= 0.4), 1024; mindmap:
reasoning, 7/10, 2000; flashcards: default, 1/2, 1500 — and any other task
identifier selects nothing, in which case the request rejects with the
invalid-task error having performed 0 fetches (no network call). -/
theorem task_policy_table (content prompt task : String) :
    (selectTaskParams "summarize" content prompt).map policyTriple
        = some (defaultModel, 3 / 10, 1024) ∧
    (selectTaskParams "quiz" content prompt).map policyTriple
        = some (reasoningModel, 7 / 10, 1500) ∧
    (selectTaskParams "askdoubt" content prompt).map policyTriple
        = some (defaultModel, 2 / 5, 1024) ∧
    (selectTaskParams "mindmap" content prompt).map policyTriple
        = some (reasoningModel, 7 / 10, 2000) ∧
    (selectTaskParams "flashcards" content prompt).map policyTriple
        = some (defaultModel, 1 / 2, 1500) ∧
    (task ≠ "summarize" → task ≠ "quiz" → task ≠ "askdoubt" → task ≠ "mindmap" →
      task ≠ "flashcards" → selectTaskParams task content prompt = none) ∧
    (∀ st now req key oracle,
      selectTaskParams req.task req.content req.prompt = none →
      freshRequest st now req key oracle
        = (.err .invalidTask,
           { st with ongoing := addKey (removeKey st.ongoing key) key }, 0)) := by
  refine ⟨?_, ?_, ?_, ?_, ?_, ?_, ?_⟩
  · simp [selectTaskParams, policyTriple]
  · simp [selectTaskParams, policyTriple]
  · simp [selectTaskParams, policyTriple]
  · simp [selectTaskParams, policyTriple]
  · simp [selectTaskParams, policyTriple]
  · intro h1 h2 h3 h4 h5
    simp [selectTaskParams, h1, h2, h3, h4, h5]
  · intro st now req key oracle hnone
    rw [freshRequest, hnone]

/-- C7, counterexample.  A payload whose single element has `correctAnswer`
`"E"`, which is none of its 4 options, passes the component's validation, is
installed as the question list, and is rendered as the current question — the
component does not reject it. -/
theorem foreign_correct_answer_accepted_cex :
    validQuizPayload foreignAnswerPayload = true ∧
    onQuizSuccess foreignAnswerPayload initialQuizState
      = { quiz := [{ question := "Q1", options := ["A", "B", "C", "D"],
                     correctAnswer := "E" }],
          currentQuestionIndex := 0, selectedOption := none, isAnswered := false,
          score := 0, isQuizCompleted := false } ∧
    currentQuestion (onQuizSuccess foreignAnswerPayload initialQuizState)
      = some { question := "Q1", options := ["A", "B", "C", "D"],
               correctAnswer := "E" } ∧
    renderQuizBody (onQuizSuccess foreignAnswerPayload initialQuizState)
      = .questionView 0 ∧
    "E" ∉ (["A", "B", "C", "D"] : List String) := by decide

/-- C7 (amended).  The component's validation accepts a payload exactly when
it is an array all of whose elements have a truthy `question`, an `options`
array of length exactly 4, and a truthy `correctAnswer`; it never checks that
`correctAnswer` equals one of the options, so an element with all three fields
well-formed is accepted regardless of where its `correctAnswer` comes from. -/
theorem quiz_element_validation (xs : List JSVal) (qText cText : String)
    (opts : List JSVal) :
    (validQuizPayload (.arr xs) = true ↔ ∀ q ∈ xs, isValidQuizElement q = true) ∧
    (qText ≠ "" → cText ≠ "" → opts.length = 4 →
      isValidQuizElement
        (.obj [("question", .str qText), ("options", .arr opts),
               ("correctAnswer", .str cText)]) = true) := by
  constructor
  · simp [validQuizPayload, List.all_eq_true]
  · intro h1 h2 h3
    simp [isValidQuizElement, jsGet, lookupField, truthy, isArr, jsLength, h1, h2, h3]

/-- C8, counterexample.  A payload whose single element lacks `options` (and
`correctAnswer`) is rejected and the state hooks keep their initial values;
but once the request has settled the component shows the no-questions screen —
which is neither the loading screen nor the error card — so the machine does
not "remain in the Loading/error state". -/
theorem malformed_payload_view_cex :
    validQuizPayload partialQuizPayload = false ∧
    onQuizSuccess partialQuizPayload initialQuizState = initialQuizState ∧
    renderQuiz settledHookFlags.1 settledHookFlags.2
        (onQuizSuccess partialQuizPayload initialQuizState) = .noQuestions ∧
    isLoadingOrErrorView
        (renderQuiz settledHookFlags.1 settledHookFlags.2
          (onQuizSuccess partialQuizPayload initialQuizState)) = false := by decide

/-- C8 (amended).  A payload that is not an array, or one of whose elements
lacks a truthy `question`, an `options` array of exactly 4 entries, or a
truthy `correctAnswer`, fails the validation; a payload failing the validation
leaves every state hook unchanged — so the machine never enters the question
view with partial data — and, when no questions had been loaded, the settled
component shows the no-questions screen (not the loading screen or the error
card). -/
theorem malformed_payload_rejected (data q : JSVal) (xs : List JSVal)
    (s : QuizState) :
    (isArr data = false → validQuizPayload data = false) ∧
    (q ∈ xs →
      truthy (jsGet q "question") = false ∨ isArr (jsGet q "options") = false ∨
        jsLength (jsGet q "options") ≠ 4 ∨ truthy (jsGet q "correctAnswer") = false →
      validQuizPayload (.arr xs) = false) ∧
    (validQuizPayload data = false → onQuizSuccess data s = s) ∧
    (validQuizPayload data = false →
      renderQuiz settledHookFlags.1 settledHookFlags.2
          (onQuizSuccess data initialQuizState) = .noQuestions) := by
  refine ⟨?_, ?_, ?_, ?_⟩
  · intro h
    cases data <;> simp_all [validQuizPayload, isArr]
  · intro hq hbad
    have helem : isValidQuizElement q = false := by
      rcases hbad with h | h | h | h <;> simp [isValidQuizElement, h]
    simp only [validQuizPayload, List.all_eq_false]
    exact ⟨q, hq, by simp [helem]⟩
  · intro h
    rw [onQuizSuccess]
    simp [h]
  · intro h
    have hkeep : onQuizSuccess data initialQuizState = initialQuizState := by
      rw [onQuizSuccess]; simp [h]
    rw [hkeep]
    decide

/-- C9.  From any component state, `restartQuiz` returns to the first question
with score 0, a cleared selection, the answered flag and the completion flag
down, and the very same question list (the `quiz` hook is not written and no
generation request is issued), so the current question becomes the first of
the unchanged sequence. -/
theorem restart_resets_preserving_questions (s : QuizState) :
    (restartQuiz s).quiz = s.quiz ∧
    (restartQuiz s).currentQuestionIndex = 0 ∧
    (restartQuiz s).score = 0 ∧
    (restartQuiz s).selectedOption = none ∧
    (restartQuiz s).isAnswered = false ∧
    (restartQuiz s).isQuizCompleted = false ∧
    currentQuestion (restartQuiz s) = s.quiz[0]? :=
  ⟨rfl, rfl, rfl, rfl, rfl, rfl, rfl⟩

/-- C10.  The empty JSON array passes the validation (the per-element check is
vacuous): from any prior state the component resets with an empty question
list, so there is no current question and the quiz is not completed — the
body renders the no-questions screen, neither a question card (Answering) nor
the results card (Completed). -/
theorem empty_quiz_payload_accepted (s : QuizState) :
    validQuizPayload (.arr []) = true ∧
    onQuizSuccess (.arr []) s = initialQuizState ∧
    currentQuestion (onQuizSuccess (.arr []) s) = none ∧
    (onQuizSuccess (.arr []) s).isQuizCompleted = false ∧
    renderQuizBody (onQuizSuccess (.arr []) s) = .noQuestions :=
  ⟨rfl, rfl, rfl, rfl, rfl⟩

end EduPilot
